import Mathlib

/-!
Verification of the `manga-proxy` repository's generic IPv6 proxy relay
(`ipv6Proxy.js`, exported as `ipv6ProxyHandler` and mounted at `/i6`).

The JavaScript source is embedded shallowly:
* module-level environment constants (`SHARED_SECRET`, `I6_IPV6_PREFIX`, ...)
  become an explicit `Config` record passed to each function;
* the outside world (platform, shell command results, the UDP connectivity
  probe, the random bytes from `crypto.randomBytes`, the upstream fetch
  outcome, the wall clock) becomes an `Oracle` record of per-request facts;
* external library primitives that are not part of this repository
  (`crypto.createHmac(...).digest('hex')` and the WHATWG `URL` origin
  computation) are abstract function parameters collected in `Ext`;
* the handler's observable side effects (shell invocations, the probe,
  agent construction, the upstream fetch) are recorded in an `Effect` trace
  returned next to the `Response`.

String utilities (`split`, `toLowerCase`, `trim`, `join`, hex rendering)
are re-implemented structurally over `List Char` so that every definition
evaluates inside the kernel; they model the JavaScript semantics for the
ASCII data that headers, hextets and URLs consist of.
-/

set_option linter.unusedVariables false

namespace I6

/-- One 16-bit group rendered by `readUInt16BE(..).toString(16).padStart(4,'0')`:
for `n < 16` this is the lowercase hex digit character. -/
def hexDigitChar (n : Nat) : Char :=
  if n < 10 then Char.ofNat (48 + n) else Char.ofNat (87 + n)

/-- Models `v.toString(16).padStart(4,'0')` for `v` in the `readUInt16BE`
range (`v < 2^16`): four lowercase hex nibbles. -/
def hex4 (n : Nat) : String :=
  String.mk [hexDigitChar (n / 4096 % 16), hexDigitChar (n / 256 % 16),
             hexDigitChar (n / 16 % 16), hexDigitChar (n % 16)]

/-- Models `buf.readUInt16BE(2*i)` over a byte list. -/
def read16 (buf : List Nat) (i : Nat) : Nat :=
  256 * buf.getD (2 * i) 0 + buf.getD (2 * i + 1) 0

/-- Structural splitting of a character list at a separator character,
modelling JavaScript `String.prototype.split(sep)` for one-char `sep`. -/
def splitOnChar (sep : Char) : List Char → List (List Char)
  | [] => [[]]
  | c :: cs =>
    let rest := splitOnChar sep cs
    if c = sep then [] :: rest
    else match rest with
      | [] => [[c]]
      | r :: rs => (c :: r) :: rs

/-- `String(x).split(':').filter(Boolean)`: split on `':'` and drop empty
pieces. -/
def splitColonFilter (s : String) : List String :=
  ((splitOnChar ':' s.data).map String.mk).filter (fun p => p ≠ "")

/-- `Array.prototype.join(sep)`. -/
def joinWith (sep : String) : List String → String
  | [] => ""
  | [x] => x
  | x :: xs => x ++ sep ++ joinWith sep xs

/-- ASCII lowercasing of one character (models `toLowerCase()` on the ASCII
range that HTTP header names and URL schemes use). -/
def lowerChar (c : Char) : Char :=
  if 'A' ≤ c ∧ c ≤ 'Z' then Char.ofNat (c.toNat + 32) else c

/-- ASCII `String.prototype.toLowerCase()`. -/
def lowerStr (s : String) : String := String.mk (s.data.map lowerChar)

/-- ASCII whitespace test for `trim`. -/
def isWsChar (c : Char) : Bool := c = ' ' ∨ c = '\t' ∨ c = '\n' ∨ c = '\r'

/-- `String.prototype.trim()` on ASCII whitespace. -/
def jsTrim (s : String) : String :=
  String.mk (((s.data.dropWhile isWsChar).reverse.dropWhile isWsChar).reverse)

/-- JavaScript truthiness of an optional string: `undefined` and `""` are
falsy. -/
def jsTruthy : Option String → Option String
  | some s => if s = "" then none else some s
  | none => none

/-- JavaScript `a || b` on optional strings. -/
def jsOr (a b : Option String) : Option String :=
  match jsTruthy a with
  | some s => some s
  | none => jsTruthy b

/-- `pre` is a prefix of `s` (for the scheme test `/^https?:\/\//i`). -/
def startsWithStr (pre s : String) : Bool := List.isPrefixOf pre.data s.data

/-- The environment-sourced module constants of `ipv6Proxy.js`
(`I6_SHARED_SECRET`, `I6_IPV6_PREFIX`, `I6_IPV6_SUBNET`, `I6_INTERFACE`,
`I6_REQUEST_TIMEOUT`, `I6_DEBUG`, `I6_ENABLE_ASSIGN`, `I6_REQUIRE_TOKEN`,
`I6_PROXY_LIST`), read once at process start. -/
structure Config where
  sharedSecret : String
  prefixStr : String
  subnetStr : String
  ifaceName : String
  requestTimeoutMs : Nat
  debugFlag : Bool
  enableAssign : Bool
  requireToken : Bool
  proxyListStr : String
deriving DecidableEq

/-- External library primitives used by `ipv6Proxy.js` that are not source
code of this repository: `crypto.createHmac('sha256', key).update(msg)
.digest('hex')` (key, message ↦ lowercase hex digest) and the WHATWG
`new URL(u).origin` computation (`none` models the constructor throwing). -/
structure Ext where
  hmacSha256Hex : String → String → String
  urlOriginOf : String → Option String

/-- Outcome of the single upstream `fetch` call. `abortError` covers both
`e.name === 'AbortError'` and `e.type === 'aborted'`. -/
inductive FetchResult where
  | ok (status : Nat) (hdrs : List (String × String)) (body : String)
  | abortError
  | otherError (msg : String)
deriving DecidableEq

/-- Per-request facts supplied by the environment: wall clock (`Date.now()`
in milliseconds), `os.platform()`, the results of the `ip` shell commands,
the connectivity probe, the bytes from `crypto.randomBytes`, the random
pick of `chooseFromList`, and the upstream fetch outcome. -/
structure Oracle where
  nowMs : Nat
  platform : String
  ifaceOk : Bool
  addOk : Bool
  probeOk : Bool
  randBuf : List Nat
  proxyPick : Nat
  fetchResult : FetchResult
  infoOut : String
deriving DecidableEq

/-- The relay request as Express hands it to `handler`: method, client
headers, and the query parameters. `headersParamParsed` is the result of
`parseHeadersParam(req.query.headers)` — JSON parsing happens in the
external `JSON.parse`, so the embedding receives the already-parsed header
object (invalid JSON or a non-object yields the empty map there). -/
structure Req where
  method : String
  headers : List (String × String)
  urlParam : Option String
  tokenParam : Option String
  headersParamParsed : List (String × String)
  refererParam : Option String
  cookiesParam : Option String
  uaParam : Option String
  proxyParam : Option String
deriving DecidableEq

/-- What the handler sends back via `res`: status, headers set with
`setHeader`, and the body text. -/
structure Response where
  status : Nat
  headers : List (String × String)
  body : String
deriving DecidableEq

/-- Observable side effects of one request, in order: the `ip link show`
interface check, the `ip -6 addr add` assignment, the UDP connectivity
probe, agent construction, and the upstream fetch (recording the target
URL, the `localAddress` bound into the agents, and the forwarded headers). -/
inductive Effect where
  | checkIfaceCmd
  | addAddrCmd (ip : String)
  | probeConn (ip : String)
  | buildAgents (upstreamUrl : Option String) (localAddr : Option String)
  | fetchReq (url : String) (localAddr : Option String) (hdrs : List (String × String))
deriving DecidableEq

/-- `randomIPv6()`: split `IPV6_PREFIX` and `IPV6_SUBNET` on `':'`, drop
empty pieces, and fill the remaining of 8 hextets with random 16-bit
values rendered as 4 lowercase hex digits. In the source the guard is
`remaining <= 0 || remaining > 8` over `8 - fixedCount`; with the counts
being non-negative this is exactly `fixedCount >= 8`. -/
def randHextets (buf : List Nat) (remaining : Nat) : List String :=
  (List.range remaining).map (fun i => hex4 (read16 buf i))

/-- The hextet list `[...prefParts, ...subParts, ...rand]` built by
`randomIPv6` when the configuration leaves room for random hextets. -/
def addrParts (cfg : Config) (buf : List Nat) : List String :=
  let prefParts := splitColonFilter cfg.prefixStr
  let subParts := splitColonFilter cfg.subnetStr
  prefParts ++ subParts ++ randHextets buf (8 - (prefParts.length + subParts.length))

/-- `randomIPv6()` itself: `null` (here `none`) signals fallback. -/
def randomIPv6 (cfg : Config) (buf : List Nat) : Option String :=
  let prefParts := splitColonFilter cfg.prefixStr
  let subParts := splitColonFilter cfg.subnetStr
  let fixedCount := prefParts.length + subParts.length
  if 8 ≤ fixedCount then none
  else some (joinWith ":" (addrParts cfg buf))

/-- `deriveDynamicKey()`: the decimal string of
`Math.floor(Date.now() / 1000 / (3*60)) * (3*60)`. -/
def bucketOf (nowMs : Nat) : Nat := nowMs / 1000 / (3 * 60) * (3 * 60)

/-- The HMAC key bytes: `Buffer.from(String(nowBucket), 'utf8')`. -/
def deriveDynamicKey (nowMs : Nat) : String := toString (bucketOf nowMs)

/-- The hex digest `validateApiToken` compares the caller token against. -/
def expectedToken (ext : Ext) (nowMs : Nat) : String :=
  ext.hmacSha256Hex (deriveDynamicKey nowMs) "proxy-access"

/-- `crypto.timingSafeEqual` on UTF-8 buffers: throws (`none`) when the
byte lengths differ, otherwise reports byte equality (for valid UTF-8,
byte equality coincides with string equality). -/
def timingSafeEq (a b : String) : Option Bool :=
  if a.utf8ByteSize = b.utf8ByteSize then some (a == b) else none

/-- `validateApiToken(token)`: the `try`/`catch` maps the length-mismatch
throw of `timingSafeEqual` to `false`. The `cfg` parameter carries the
module-level constants in scope (`SHARED_SECRET` among them); the body
reads none of them. -/
def validateApiToken (cfg : Config) (ext : Ext) (nowMs : Nat) (token : Option String) : Bool :=
  let expected := expectedToken ext nowMs
  match timingSafeEq (token.getD "") expected with
  | some r => r
  | none => false

/-- `ensureUrlHasScheme(url)`: prepend `https://` unless the URL already
starts with `http://` or `https://` (case-insensitively). -/
def ensureUrlHasScheme (url : String) : String :=
  if startsWithStr "http://" (lowerStr url) || startsWithStr "https://" (lowerStr url)
  then url else "https://" ++ url

/-- `chooseFromList(listStr)`: split on commas, trim, drop empties, pick a
uniformly random element (the random index is supplied by the oracle). -/
def chooseFromList (listStr : String) (pick : Nat) : Option String :=
  let arr := (((splitOnChar ',' listStr.data).map String.mk).map jsTrim).filter (fun s => s ≠ "")
  if arr.isEmpty then none else some (arr.getD (pick % arr.length) "")

/-- `STRIP_REQ_HEADERS`: request header keys that may reveal proxying. -/
def stripReqHeaders : List String :=
  ["cf-connecting-ip", "cf-ipcountry", "cf-ray", "cf-visitor", "cf-worker",
   "cf-ew-via", "x-forwarded-for", "x-forwarded-proto", "x-real-ip", "cdn-loop"]

/-- The skip set of `filterResponseHeaders`. -/
def skipRespHeaders : List String :=
  ["transfer-encoding", "content-length", "connection", "keep-alive", "server"]

/-- JavaScript object member lookup `m[k]` (objects have unique keys;
the embedding keeps the first binding authoritative and `objSet` never
creates duplicates). -/
def objGet (m : List (String × String)) (k : String) : Option String :=
  (m.find? (fun p => p.1 == k)).map (fun p => p.2)

/-- JavaScript object member assignment `m[k] = v`: overwrite in place if
the key exists, otherwise append (insertion order preserved). -/
def objSet (m : List (String × String)) (k v : String) : List (String × String) :=
  if (m.find? (fun p => p.1 == k)).isSome
  then m.map (fun p => if p.1 == k then (k, v) else p)
  else m ++ [(k, v)]

/-- JavaScript falsiness of `m[k]`: absent or the empty string. -/
def objFalsy (m : List (String × String)) (k : String) : Bool :=
  match objGet m k with
  | none => true
  | some v => v == ""

/-- `filterResponseHeaders(headers)`: drop the skip set (keys lowercased
for the test), copy everything else into a fresh object. -/
def filterResponseHeaders (headers : List (String × String)) : List (String × String) :=
  headers.foldl
    (fun out kv => if skipRespHeaders.contains (lowerStr kv.1) then out else objSet out kv.1 kv.2)
    []

def defaultUA : String :=
  "Mozilla/5.0 (Windows NT 10.0; Win64; x64) AppleWebKit/537.36 (KHTML, like Gecko) Chrome/126.0.0.0 Safari/537.36"

def defaultAccept : String :=
  "text/html,application/xhtml+xml,application/xml;q=0.9,image/avif,image/webp,*/*;q=0.8"

def defaultAcceptLang : String := "en-US,en;q=0.9"

/-- The loop body of the strip loop (source lines 339-344): skip `host`
and the strip set (keys lowercased for the test), copy the rest. -/
def stripStep (m : List (String × String)) (kv : String × String) : List (String × String) :=
  let key := lowerStr kv.1
  if key == "host" then m
  else if stripReqHeaders.contains key then m
  else objSet m kv.1 kv.2

/-- One assignment of `Object.assign(fwdHeaders, extraHeaders)`. -/
def assignStep (m : List (String × String)) (kv : String × String) : List (String × String) :=
  objSet m kv.1 kv.2

/-- Source lines 347-351: explicit `ua` override wins, otherwise a
browser-like default fills a missing/empty user-agent. -/
def uaStage (uaParam : Option String) (m : List (String × String)) : List (String × String) :=
  match jsTruthy uaParam with
  | some ua => objSet m "user-agent" ua
  | none => if objFalsy m "user-agent" then objSet m "user-agent" defaultUA else m

/-- Source lines 352-354: default `accept` when absent/empty. -/
def acceptStage (m : List (String × String)) : List (String × String) :=
  if objFalsy m "accept" then objSet m "accept" defaultAccept else m

/-- Source lines 355-357: default `accept-language` when absent/empty. -/
def acceptLangStage (m : List (String × String)) : List (String × String) :=
  if objFalsy m "accept-language" then objSet m "accept-language" defaultAcceptLang else m

/-- Source lines 358-366: referer override when no referer is present,
with `origin` derived from the referer URL when `origin` is absent and
the URL parses. -/
def refererStage (urlOriginOf : String → Option String) (refererParam : Option String)
    (m : List (String × String)) : List (String × String) :=
  match jsTruthy refererParam with
  | some ref =>
    if objFalsy m "referer" then
      let m1 := objSet m "referer" ref
      if objFalsy m1 "origin" then
        match urlOriginOf ref with
        | some origin => objSet m1 "origin" origin
        | none => m1
      else m1
    else m
  | none => m

/-- Source lines 367-369: a cookie override always overwrites. -/
def cookieStage (cookiesParam : Option String) (m : List (String × String)) : List (String × String) :=
  match jsTruthy cookiesParam with
  | some c => objSet m "cookie" c
  | none => m

/-- The defaults-and-overrides tail of the inbound transform (source
lines 346-369), one stage per source statement. -/
def applyHeaderDefaults (urlOriginOf : String → Option String)
    (uaParam refererParam cookiesParam : Option String)
    (fwd1 : List (String × String)) : List (String × String) :=
  cookieStage cookiesParam
    (refererStage urlOriginOf refererParam
      (acceptLangStage (acceptStage (uaStage uaParam fwd1))))

/-- The inbound header transform of `handler` (source lines 337-369):
copy client headers except `host` and the strip set (keys lowercased for
the test), `Object.assign` the caller's extra headers on top, then apply
the user-agent / accept / accept-language / referer+origin / cookie
defaults and overrides. -/
def buildFwdHeaders (urlOriginOf : String → Option String)
    (reqHeaders extraHeaders : List (String × String))
    (uaParam refererParam cookiesParam : Option String) : List (String × String) :=
  let fwd0 := reqHeaders.foldl stripStep []
  let fwd1 := extraHeaders.foldl assignStep fwd0
  applyHeaderDefaults urlOriginOf uaParam refererParam cookiesParam fwd1

/-- Express `req.header(name)`: case-insensitive lookup among the client
headers. -/
def reqHeaderCI (headers : List (String × String)) (name : String) : Option String :=
  (headers.find? (fun p => lowerStr p.1 == lowerStr name)).map (fun p => p.2)

/-- The auth gate of `handler`: when `REQUIRE_TOKEN` is set, the token is
taken as `req.header('API-Token') || req.query.token` and the request is
rejected when it is falsy or fails `validateApiToken`. -/
def authRejects (cfg : Config) (ext : Ext) (nowMs : Nat) (req : Req) : Bool :=
  cfg.requireToken &&
    (match jsOr (reqHeaderCI req.headers "API-Token") req.tokenParam with
     | none => true
     | some t => !validateApiToken cfg ext nowMs (some t))

/-- `res.status(401).send('Unauthorized: invalid API-Token')`. -/
def unauthorizedResp : Response :=
  Response.mk 401 [] "Unauthorized: invalid API-Token"

/-- `addIPv6ToInterface(ip)`'s result: with `ENABLE_ASSIGN` unset it skips
the system call and reports success; otherwise it reports the outcome of
`ip -6 addr add` (with "File exists" already counted as success). -/
def addIPv6Result (cfg : Config) (o : Oracle) : Bool :=
  if cfg.enableAssign then o.addOk else true

/-- The forwarding tail of `handler` (source lines 325-400): pick the
upstream proxy (query parameter wins over the `I6_PROXY_LIST` choice),
build agents, build the forwarded headers, perform the single fetch and
map its outcome (`AbortError`/`aborted` to 504, any other error to 502
with the message, success to the upstream status, filtered headers and
body). -/
def forward (cfg : Config) (ext : Ext) (o : Oracle) (req : Req)
    (targetUrl : String) (extraHeaders : List (String × String))
    (tr0 : List Effect) (localIP : Option String) : Response × List Effect :=
  let upstream := jsOr req.proxyParam (chooseFromList cfg.proxyListStr o.proxyPick)
  let trAg := match upstream with
    | some u => [Effect.buildAgents (some u) localIP]
    | none => match localIP with
      | some _ => [Effect.buildAgents none localIP]
      | none => []
  let fwdHeaders := buildFwdHeaders ext.urlOriginOf req.headers extraHeaders
    req.uaParam req.refererParam req.cookiesParam
  let tr := tr0 ++ trAg ++ [Effect.fetchReq targetUrl localIP fwdHeaders]
  let resp := match o.fetchResult with
    | FetchResult.ok st hs body => Response.mk st (filterResponseHeaders hs) body
    | FetchResult.abortError => Response.mk 504 [] "Request timed out"
    | FetchResult.otherError m => Response.mk 502 [] ("Upstream error: " ++ m)
  (resp, tr)

/-- The egress-resolution middle of `handler` (source lines 304-323): on
Linux verify the interface (failure: 500), assign the generated address
when there is one (failure: 500), probe it (failure: demote to the system
default); elsewhere never use the generated address. -/
def relay (cfg : Config) (ext : Ext) (o : Oracle) (req : Req)
    (targetRaw : String) : Response × List Effect :=
  let targetUrl := ensureUrlHasScheme targetRaw
  let extraHeaders := req.headersParamParsed
  let localIP0 := randomIPv6 cfg o.randBuf
  if o.platform == "linux" then
    if !o.ifaceOk then
      (Response.mk 500 [] ("Interface " ++ cfg.ifaceName ++ " not found"), [Effect.checkIfaceCmd])
    else
      let added := match localIP0 with
        | some _ => addIPv6Result cfg o
        | none => true
      let trAdd := match localIP0 with
        | some ip => if cfg.enableAssign then [Effect.addAddrCmd ip] else []
        | none => []
      if !added then
        (Response.mk 500 [] "Failed to configure IPv6 address", Effect.checkIfaceCmd :: trAdd)
      else
        let probed := match localIP0 with
          | some _ => o.probeOk
          | none => true
        let trProbe := match localIP0 with
          | some ip => [Effect.probeConn ip]
          | none => []
        let localIP := if probed then localIP0 else none
        forward cfg ext o req targetUrl extraHeaders
          (Effect.checkIfaceCmd :: (trAdd ++ trProbe)) localIP
  else
    forward cfg ext o req targetUrl extraHeaders [] none

/-- The `/i6` relay `handler`: auth gate, then the GET-without-url
liveness response, then the missing-url 400, then egress resolution and
forwarding. The liveness branch's `ip -6 addr show` output comes from the
oracle. -/
def handler (cfg : Config) (ext : Ext) (o : Oracle) (req : Req) : Response × List Effect :=
  if authRejects cfg ext o.nowMs req then
    (unauthorizedResp, [])
  else if req.method == "GET" && (jsTruthy req.urlParam).isNone then
    if o.platform == "linux" then
      (Response.mk 200 [] ("i6.js running (v1.0.0)\n" ++ o.infoOut), [])
    else
      (Response.mk 200 [] ("i6.js running (v1.0.0) on " ++ o.platform), [])
  else
    match jsTruthy req.urlParam with
    | none => (Response.mk 400 [] "Missing url", [])
    | some targetRaw => relay cfg ext o req targetRaw

/-- Recogniser for the fetch effect. -/
def isFetch : Effect → Bool
  | Effect.fetchReq _ _ _ => true
  | _ => false

/-- Number of upstream fetches a trace performs. -/
def fetchCount (tr : List Effect) : Nat := tr.countP isFetch

/-- Whether a trace performs any upstream fetch. -/
def hasFetch (tr : List Effect) : Bool := tr.any isFetch

/-- A key the inbound transform must not forward from the client:
`host` or any member of the strip set (compared lowercased). -/
def allowedKey (k : String) : Bool :=
  !(lowerStr k == "host") && !(stripReqHeaders.contains (lowerStr k))

/-- 1 to 4 lowercase hex digits. -/
def isLowerHexDigit (c : Char) : Bool :=
  (('0' ≤ c) && (c ≤ '9')) || (('a' ≤ c) && (c ≤ 'f'))

/-- A well-formed lowercase hextet: 1-4 lowercase hex digits. -/
def isHextet (s : String) : Bool :=
  decide (1 ≤ s.length) && decide (s.length ≤ 4) && s.data.all isLowerHexDigit

/-! ## Shared helper lemmas -/

lemma isLowerHexDigit_hexDigitChar : ∀ k, k < 16 → isLowerHexDigit (hexDigitChar k) = true := by
  decide

lemma isHextet_hex4 (n : Nat) : isHextet (hex4 n) = true := by
  have h1 := isLowerHexDigit_hexDigitChar (n / 4096 % 16) (Nat.mod_lt _ (by norm_num))
  have h2 := isLowerHexDigit_hexDigitChar (n / 256 % 16) (Nat.mod_lt _ (by norm_num))
  have h3 := isLowerHexDigit_hexDigitChar (n / 16 % 16) (Nat.mod_lt _ (by norm_num))
  have h4 := isLowerHexDigit_hexDigitChar (n % 16) (Nat.mod_lt _ (by norm_num))
  simp [isHextet, hex4, String.length, h1, h2, h3, h4]

lemma validate_true_iff (cfg : Config) (ext : Ext) (nowMs : Nat) (tok : String) :
    validateApiToken cfg ext nowMs (some tok) = true ↔ tok = expectedToken ext nowMs := by
  by_cases hsz : tok.utf8ByteSize = (expectedToken ext nowMs).utf8ByteSize
  · simp only [validateApiToken, timingSafeEq, Option.getD_some, hsz, if_pos rfl]
    exact beq_iff_eq
  · simp only [validateApiToken, timingSafeEq, Option.getD_some, if_neg hsz]
    constructor
    · intro h; exact absurd h (by simp)
    · intro h; exact absurd (congrArg String.utf8ByteSize h) hsz

lemma validate_false_of_size (cfg : Config) (ext : Ext) (nowMs : Nat) (tok : Option String)
    (hlen : ∀ k m, (ext.hmacSha256Hex k m).utf8ByteSize = 64)
    (h : (tok.getD "").utf8ByteSize ≠ 64) :
    validateApiToken cfg ext nowMs tok = false := by
  have hsz : (tok.getD "").utf8ByteSize ≠ (expectedToken ext nowMs).utf8ByteSize := by
    rw [expectedToken, hlen]; exact h
  simp only [validateApiToken, timingSafeEq, if_neg hsz]

/-! ## Witness constants: the source's default configuration
(`I6_IPV6_PREFIX=2001:41d0:601:1100`, `I6_IPV6_SUBNET=5950`,
`I6_INTERFACE=ens3`, a 30 s timeout, all flags off) and concrete
stand-ins for the external primitives. -/

def cfgDefault : Config :=
  Config.mk "c" "2001:41d0:601:1100" "5950" "ens3" 30000 false false false ""

def cfgAuth : Config :=
  Config.mk "c" "2001:41d0:601:1100" "5950" "ens3" 30000 false false true ""

def cfgFull : Config :=
  Config.mk "c" "1:2:3:4:5:6:7:8" "" "ens3" 30000 false false false ""

def extKeyEcho : Ext := Ext.mk (fun k _ => k) (fun _ => none)

def ext64 : Ext := Ext.mk (fun _ _ => String.mk (List.replicate 64 'e')) (fun _ => none)

/-! ## C3 -/

/-- C3: for every configuration whose prefix and subnet hextets number
fewer than 8, `randomIPv6` returns the colon-join of exactly 8 hextets,
each 1-4 lowercase hex digits, beginning with the prefix hextets followed
by the subnet hextets (validity of the configured hextets themselves is
the spec's "valid prefix/subnet configuration" premise). -/
theorem c3_random_ipv6_shape : ∀ (cfg : Config) (buf : List Nat),
    (splitColonFilter cfg.prefixStr ++ splitColonFilter cfg.subnetStr).all isHextet = true →
    (splitColonFilter cfg.prefixStr).length + (splitColonFilter cfg.subnetStr).length < 8 →
    randomIPv6 cfg buf = some (joinWith ":" (addrParts cfg buf))
    ∧ (addrParts cfg buf).length = 8
    ∧ (addrParts cfg buf).all isHextet = true
    ∧ (addrParts cfg buf).take
        ((splitColonFilter cfg.prefixStr).length + (splitColonFilter cfg.subnetStr).length)
        = splitColonFilter cfg.prefixStr ++ splitColonFilter cfg.subnetStr := by
  intro cfg buf hv hlen
  refine ⟨?_, ?_, ?_, ?_⟩
  · simp only [randomIPv6, if_neg (Nat.not_le.mpr hlen)]
  · simp only [addrParts, randHextets, List.length_append, List.length_map, List.length_range]
    omega
  · simp only [addrParts, List.all_append, Bool.and_eq_true]
    rw [List.all_append, Bool.and_eq_true] at hv
    refine ⟨⟨hv.1, hv.2⟩, ?_⟩
    simp only [randHextets, List.all_eq_true]
    intro p hp
    rcases List.mem_map.mp hp with ⟨i, _, he⟩
    exact he ▸ isHextet_hex4 _
  · have hl : (splitColonFilter cfg.prefixStr).length + (splitColonFilter cfg.subnetStr).length
        = (splitColonFilter cfg.prefixStr ++ splitColonFilter cfg.subnetStr).length := by
      simp
    rw [addrParts, hl, List.take_left]

/-- Witness for C3 at the source's default prefix/subnet and a concrete
6-byte random buffer. -/
theorem c3_random_ipv6_shape_witness :
    randomIPv6 cfgDefault [0, 1, 0, 2, 0, 3]
      = some (joinWith ":" (addrParts cfgDefault [0, 1, 0, 2, 0, 3]))
    ∧ (addrParts cfgDefault [0, 1, 0, 2, 0, 3]).length = 8
    ∧ (addrParts cfgDefault [0, 1, 0, 2, 0, 3]).all isHextet = true
    ∧ (addrParts cfgDefault [0, 1, 0, 2, 0, 3]).take
        ((splitColonFilter cfgDefault.prefixStr).length + (splitColonFilter cfgDefault.subnetStr).length)
        = splitColonFilter cfgDefault.prefixStr ++ splitColonFilter cfgDefault.subnetStr :=
  c3_random_ipv6_shape cfgDefault [0, 1, 0, 2, 0, 3] (by decide) (by decide)

/-! ## C4 -/

/-- C4: with 8 or more configured hextets `randomIPv6` returns the
unusable sentinel `null`, never a malformed address. -/
theorem c4_random_ipv6_sentinel : ∀ (cfg : Config) (buf : List Nat),
    8 ≤ (splitColonFilter cfg.prefixStr).length + (splitColonFilter cfg.subnetStr).length →
    randomIPv6 cfg buf = none := by
  intro cfg buf h
  simp only [randomIPv6, if_pos h]

/-- Witness for C4 at a configuration with 8 prefix hextets. -/
theorem c4_random_ipv6_sentinel_witness : randomIPv6 cfgFull [0, 1, 2, 3] = none :=
  c4_random_ipv6_sentinel cfgFull [0, 1, 2, 3] (by decide)

/-! ## C5 -/

/-- C5: the validator accepts exactly the token equal to the hex
HMAC-SHA256 of `"proxy-access"` keyed by the decimal string of the
180-second bucket of the current time; a token generated for a bucket more
than one bucket width away lies in a different bucket, and (given the two
buckets' digests differ, i.e. absent an HMAC collision) is rejected. -/
theorem c5_token_validation : ∀ (cfg : Config) (ext : Ext) (nowMs : Nat) (tok : String) (tPast : Nat),
    (validateApiToken cfg ext nowMs (some tok) = true ↔ tok = expectedToken ext nowMs)
    ∧ ((bucketOf tPast + 180 < bucketOf nowMs ∨ bucketOf nowMs + 180 < bucketOf tPast) →
        bucketOf tPast ≠ bucketOf nowMs
        ∧ (expectedToken ext tPast ≠ expectedToken ext nowMs →
            validateApiToken cfg ext nowMs (some (expectedToken ext tPast)) = false)) := by
  intro cfg ext nowMs tok tPast
  refine ⟨validate_true_iff cfg ext nowMs tok, ?_⟩
  intro hfar
  refine ⟨by omega, ?_⟩
  intro hne
  cases hval : validateApiToken cfg ext nowMs (some (expectedToken ext tPast)) with
  | false => rfl
  | true => exact absurd ((validate_true_iff cfg ext nowMs _).mp hval) hne

/-- Witness for C5: at time 720000 ms (bucket 720) the bucket-720 token is
accepted and the bucket-0 token (more than one bucket in the past) is
rejected, with the digest function instantiated concretely. -/
theorem c5_token_validation_witness :
    validateApiToken cfgDefault extKeyEcho 720000 (some (expectedToken extKeyEcho 720000)) = true
    ∧ validateApiToken cfgDefault extKeyEcho 720000 (some (expectedToken extKeyEcho 0)) = false :=
  ⟨(c5_token_validation cfgDefault extKeyEcho 720000 (expectedToken extKeyEcho 720000) 0).1.mpr rfl,
   ((c5_token_validation cfgDefault extKeyEcho 720000 "" 0).2 (Or.inl (by decide))).2 (by decide)⟩

/-! ## C9 -/

/-- C9: the accept/reject decision of the token validator is independent
of the configured shared secret — `SHARED_SECRET` is in scope but never
used in key derivation or comparison. -/
theorem c9_secret_unused : ∀ (s1 s2 pfx sub ifc : String) (tmo : Nat)
    (dbg asg rqt : Bool) (pl : String) (ext : Ext) (nowMs : Nat) (tok : Option String),
    validateApiToken (Config.mk s1 pfx sub ifc tmo dbg asg rqt pl) ext nowMs tok
      = validateApiToken (Config.mk s2 pfx sub ifc tmo dbg asg rqt pl) ext nowMs tok :=
  fun _ _ _ _ _ _ _ _ _ _ _ _ _ => rfl

/-! ## C10 -/

/-- C10: the validator is a total boolean function (the model needs no
error monad: the only throwing call is `timingSafeEqual`, whose
length-mismatch throw the source catches into `false`); in particular a
missing token, the empty token, and every token whose UTF-8 byte length
differs from the 64 bytes of the hex digest are rejected. -/
theorem c10_length_mismatch_rejected : ∀ (cfg : Config) (ext : Ext) (nowMs : Nat) (tok : Option String),
    (∀ k m, (ext.hmacSha256Hex k m).utf8ByteSize = 64) →
    ((tok.getD "").utf8ByteSize ≠ 64 → validateApiToken cfg ext nowMs tok = false)
    ∧ validateApiToken cfg ext nowMs none = false
    ∧ validateApiToken cfg ext nowMs (some "") = false := by
  intro cfg ext nowMs tok hlen
  refine ⟨fun h => validate_false_of_size cfg ext nowMs tok hlen h, ?_, ?_⟩
  · exact validate_false_of_size cfg ext nowMs none hlen (by decide)
  · exact validate_false_of_size cfg ext nowMs (some "") hlen (by decide)

/-- Witness for C10 with a concrete 64-byte digest function and a 5-byte
token. -/
theorem c10_length_mismatch_rejected_witness :
    validateApiToken cfgDefault ext64 0 (some "short") = false
    ∧ validateApiToken cfgDefault ext64 0 none = false :=
  ⟨(c10_length_mismatch_rejected cfgDefault ext64 0 (some "short")
      (fun _ _ => (by decide : (String.mk (List.replicate 64 'e')).utf8ByteSize = 64))).1 (by decide),
   (c10_length_mismatch_rejected cfgDefault ext64 0 none
      (fun _ _ => (by decide : (String.mk (List.replicate 64 'e')).utf8ByteSize = 64))).2.1⟩

/-! ## C8 -/

lemma objSet_eq_append {m : List (String × String)} {k v : String}
    (h : ∀ p ∈ m, p.1 ≠ k) : objSet m k v = m ++ [(k, v)] := by
  have hf : m.find? (fun p => p.1 == k) = none :=
    List.find?_eq_none.mpr (fun p hp => by simp [h p hp])
  simp [objSet, hf]

lemma filterResp_foldl : ∀ (L acc : List (String × String)),
    (L.map Prod.fst).Nodup → (∀ p ∈ L, ∀ q ∈ acc, q.1 ≠ p.1) →
    L.foldl (fun out kv => if skipRespHeaders.contains (lowerStr kv.1) then out else objSet out kv.1 kv.2) acc
      = acc ++ L.filter (fun kv => !(skipRespHeaders.contains (lowerStr kv.1))) := by
  intro L
  induction L with
  | nil => intro acc _ _; simp
  | cons a L ih =>
    intro acc hnd hdisj
    simp only [List.map_cons, List.nodup_cons] at hnd
    by_cases hskip : skipRespHeaders.contains (lowerStr a.1)
    · simp only [List.foldl_cons, if_pos hskip]
      rw [ih acc hnd.2 (fun p hp q hq => hdisj p (List.mem_cons_of_mem a hp) q hq)]
      have hmem : lowerStr a.1 ∈ skipRespHeaders := by simpa using hskip
      simp [List.filter_cons, hmem]
    · simp only [List.foldl_cons, if_neg hskip]
      rw [objSet_eq_append (fun q hq => hdisj a (List.mem_cons_self a L) q hq)]
      rw [ih (acc ++ [(a.1, a.2)]) hnd.2 ?_]
      · have hmem : lowerStr a.1 ∉ skipRespHeaders := by simpa using hskip
        simp [List.filter_cons, hmem]
      · intro p hp q hq
        rcases List.mem_append.mp hq with hq1 | hq1
        · exact hdisj p (List.mem_cons_of_mem a hp) q hq1
        · have : q = (a.1, a.2) := by simpa using hq1
          subst this
          intro he
          exact hnd.1 (he ▸ List.mem_map_of_mem Prod.fst hp)

/-- C8: on upstream header maps without repeated keys (what node-fetch's
`headers.entries()` yields — it folds repeats into one entry), the
outbound transform removes exactly the five hop-by-hop/identity keys
(matched on the lowercased key) and passes every other entry through
unchanged, in order and with its value intact. -/
theorem c8_response_filter : ∀ hs : List (String × String),
    (hs.map Prod.fst).Nodup →
    filterResponseHeaders hs
      = hs.filter (fun kv => !(skipRespHeaders.contains (lowerStr kv.1))) := by
  intro hs hnd
  exact filterResp_foldl hs [] hnd (by simp)

/-- Witness for C8 on a concrete upstream header map. -/
theorem c8_response_filter_witness :
    filterResponseHeaders
        [("Content-Length", "10"), ("x-custom", "ok"), ("Server", "nginx"), ("ETag", "abc")]
      = [("Content-Length", "10"), ("x-custom", "ok"), ("Server", "nginx"), ("ETag", "abc")].filter
          (fun kv => !(skipRespHeaders.contains (lowerStr kv.1))) :=
  c8_response_filter _ (by decide)

/-! ## C1 -/

lemma mem_objSet {m : List (String × String)} {k v : String} {kv : String × String}
    (h : kv ∈ objSet m k v) : kv ∈ m ∨ kv = (k, v) := by
  unfold objSet at h
  split at h
  · rcases List.mem_map.mp h with ⟨p, hp, he⟩
    by_cases hk : p.1 == k
    · right; rw [if_pos hk] at he; exact he.symm
    · left; rw [if_neg hk] at he; exact he ▸ hp
  · rcases List.mem_append.mp h with h1 | h1
    · left; exact h1
    · right; simpa using h1

lemma allowed_objSet {m : List (String × String)} {k v : String}
    (hm : ∀ kv ∈ m, allowedKey kv.1 = true) (hk : allowedKey k = true) :
    ∀ kv ∈ objSet m k v, allowedKey kv.1 = true := by
  intro kv h
  rcases mem_objSet h with h1 | h1
  · exact hm kv h1
  · rw [h1]; exact hk

lemma allowed_condSet {m : List (String × String)} {k v : String} {c : Bool}
    (hm : ∀ kv ∈ m, allowedKey kv.1 = true) (hk : allowedKey k = true) :
    ∀ kv ∈ (if c then objSet m k v else m), allowedKey kv.1 = true := by
  cases c
  · simpa using hm
  · simpa using allowed_objSet hm hk

lemma allowed_stripStep {m0 : List (String × String)} {a : String × String}
    (hm : ∀ kv ∈ m0, allowedKey kv.1 = true) :
    ∀ kv ∈ stripStep m0 a, allowedKey kv.1 = true := by
  unfold stripStep
  by_cases h1 : (lowerStr a.1 == "host") = true
  · rw [if_pos h1]; exact hm
  · rw [if_neg h1]
    by_cases h2 : stripReqHeaders.contains (lowerStr a.1) = true
    · rw [if_pos h2]; exact hm
    · rw [if_neg h2]
      refine allowed_objSet hm ?_
      rw [allowedKey, Bool.eq_false_iff.mpr h1, Bool.eq_false_iff.mpr h2]
      rfl

lemma allowed_strip_foldl : ∀ (L m0 : List (String × String)),
    (∀ kv ∈ m0, allowedKey kv.1 = true) →
    ∀ kv ∈ L.foldl stripStep m0, allowedKey kv.1 = true := by
  intro L
  induction L with
  | nil => intro m0 hm; simpa using hm
  | cons a L ih =>
    intro m0 hm
    simp only [List.foldl_cons]
    exact ih _ (allowed_stripStep hm)

lemma allowed_assign_foldl : ∀ (L m0 : List (String × String)),
    (∀ kv ∈ L, allowedKey kv.1 = true) →
    (∀ kv ∈ m0, allowedKey kv.1 = true) →
    ∀ kv ∈ L.foldl assignStep m0, allowedKey kv.1 = true := by
  intro L
  induction L with
  | nil => intro m0 _ hm; simpa using hm
  | cons a L ih =>
    intro m0 hL hm
    simp only [List.foldl_cons]
    apply ih _ (fun kv hk => hL kv (List.mem_cons_of_mem a hk))
    unfold assignStep
    exact allowed_objSet hm (hL a (List.mem_cons_self a L))

lemma allowed_uaStage {uaParam : Option String} {m : List (String × String)}
    (hm : ∀ kv ∈ m, allowedKey kv.1 = true) :
    ∀ kv ∈ uaStage uaParam m, allowedKey kv.1 = true := by
  unfold uaStage
  rcases jsTruthy uaParam with _ | ua
  · exact allowed_condSet hm (by decide)
  · exact allowed_objSet hm (by decide)

lemma allowed_acceptStage {m : List (String × String)}
    (hm : ∀ kv ∈ m, allowedKey kv.1 = true) :
    ∀ kv ∈ acceptStage m, allowedKey kv.1 = true :=
  allowed_condSet hm (by decide)

lemma allowed_acceptLangStage {m : List (String × String)}
    (hm : ∀ kv ∈ m, allowedKey kv.1 = true) :
    ∀ kv ∈ acceptLangStage m, allowedKey kv.1 = true :=
  allowed_condSet hm (by decide)

lemma allowed_refererStage {urlOriginOf : String → Option String}
    {refererParam : Option String} {m : List (String × String)}
    (hm : ∀ kv ∈ m, allowedKey kv.1 = true) :
    ∀ kv ∈ refererStage urlOriginOf refererParam m, allowedKey kv.1 = true := by
  unfold refererStage
  rcases jsTruthy refererParam with _ | ref
  · exact hm
  · simp only
    split
    · have h41 := allowed_objSet (v := ref) hm (by decide : allowedKey "referer" = true)
      split
      · rcases urlOriginOf ref with _ | origin
        · exact h41
        · exact allowed_objSet h41 (by decide)
      · exact h41
    · exact hm

lemma allowed_cookieStage {cookiesParam : Option String} {m : List (String × String)}
    (hm : ∀ kv ∈ m, allowedKey kv.1 = true) :
    ∀ kv ∈ cookieStage cookiesParam m, allowedKey kv.1 = true := by
  unfold cookieStage
  rcases jsTruthy cookiesParam with _ | c
  · exact hm
  · exact allowed_objSet hm (by decide)

lemma allowed_applyHeaderDefaults (urlOriginOf : String → Option String)
    (uaParam refererParam cookiesParam : Option String)
    (fwd1 : List (String × String))
    (h1 : ∀ kv ∈ fwd1, allowedKey kv.1 = true) :
    ∀ kv ∈ applyHeaderDefaults urlOriginOf uaParam refererParam cookiesParam fwd1,
      allowedKey kv.1 = true := by
  unfold applyHeaderDefaults
  exact allowed_cookieStage (allowed_refererStage
    (allowed_acceptLangStage (allowed_acceptStage (allowed_uaStage h1))))

/-- C1 counterexample: with no client headers and the caller-supplied
extra-header map `{"host": "evil"}`, the inbound transform's output does
contain the key `host` — `Object.assign` runs after the strip loop, so
extra headers reintroduce stripped keys. -/
theorem c1_counterexample :
    objGet (buildFwdHeaders (fun _ => none) [] [("host", "evil")] none none none) "host"
      = some "evil" := by decide

/-- C1 amended: the inbound transform's output contains no `host` /
strip-set key (case-insensitively) provided the caller-supplied
extra-header map itself contains no such key; keys originating from the
client headers are always stripped, and the injected default keys are
never in the strip set. -/
theorem c1_strip_invariant : ∀ (urlOriginOf : String → Option String)
    (reqHeaders extraHeaders : List (String × String))
    (uaParam refererParam cookiesParam : Option String),
    extraHeaders.all (fun kv => allowedKey kv.1) = true →
    (buildFwdHeaders urlOriginOf reqHeaders extraHeaders uaParam refererParam cookiesParam).all
      (fun kv => allowedKey kv.1) = true := by
  intro urlOriginOf reqHeaders extraHeaders uaParam refererParam cookiesParam hx
  rw [List.all_eq_true] at hx ⊢
  unfold buildFwdHeaders
  exact allowed_applyHeaderDefaults urlOriginOf uaParam refererParam cookiesParam _
    (allowed_assign_foldl extraHeaders _ hx (allowed_strip_foldl reqHeaders [] (by simp)))

/-- Witness for C1's amended theorem: client headers carrying `Host` and
strip-set keys, extra headers carrying only allowed keys. -/
theorem c1_strip_invariant_witness :
    (buildFwdHeaders (fun _ => none)
        [("Host", "evil"), ("cf-connecting-ip", "1.2.3.4"), ("X-Real-IP", "9.9.9.9"), ("accept", "x")]
        [("x-extra", "1")] none none none).all (fun kv => allowedKey kv.1) = true :=
  c1_strip_invariant (fun _ => none) _ [("x-extra", "1")] none none none (by decide)

/-! ## Handler-level helper lemmas (for C2, C6, C7) -/

/-- The agent-construction part of `forward`'s trace. -/
def agTrace (upstream localIP : Option String) : List Effect :=
  match upstream with
  | some u => [Effect.buildAgents (some u) localIP]
  | none => match localIP with
    | some _ => [Effect.buildAgents none localIP]
    | none => []

lemma forward_snd (cfg : Config) (ext : Ext) (o : Oracle) (req : Req)
    (targetUrl : String) (extra : List (String × String))
    (tr0 : List Effect) (localIP : Option String) :
    (forward cfg ext o req targetUrl extra tr0 localIP).2
      = tr0 ++ agTrace (jsOr req.proxyParam (chooseFromList cfg.proxyListStr o.proxyPick)) localIP
          ++ [Effect.fetchReq targetUrl localIP
                (buildFwdHeaders ext.urlOriginOf req.headers extra
                  req.uaParam req.refererParam req.cookiesParam)] := by
  unfold forward agTrace
  cases o.fetchResult <;> rfl

lemma fetch_notin_agTrace {u : String} {l : Option String} {h : List (String × String)}
    (upstream localIP : Option String) :
    Effect.fetchReq u l h ∉ agTrace upstream localIP := by
  unfold agTrace
  rcases upstream with _ | v
  · rcases localIP with _ | ip <;> simp
  · simp

lemma fetch_mem_forward {cfg : Config} {ext : Ext} {o : Oracle} {req : Req}
    {targetUrl : String} {extra : List (String × String)}
    {tr0 : List Effect} {localIP : Option String}
    {u : String} {l : Option String} {h : List (String × String)}
    (hm : Effect.fetchReq u l h ∈ (forward cfg ext o req targetUrl extra tr0 localIP).2) :
    Effect.fetchReq u l h ∈ tr0 ∨ (u = targetUrl ∧ l = localIP) := by
  rw [forward_snd] at hm
  rcases List.mem_append.mp hm with hm1 | hm1
  · rcases List.mem_append.mp hm1 with hm2 | hm2
    · exact Or.inl hm2
    · exact absurd hm2 (fetch_notin_agTrace _ _)
  · right
    have := List.mem_singleton.mp hm1
    injection this with h1 h2 h3
    exact ⟨h1, h2⟩

lemma forward_fst_abort {cfg : Config} {ext : Ext} {o : Oracle} {req : Req}
    {targetUrl : String} {extra : List (String × String)}
    {tr0 : List Effect} {localIP : Option String}
    (hab : o.fetchResult = FetchResult.abortError) :
    (forward cfg ext o req targetUrl extra tr0 localIP).1
      = Response.mk 504 [] "Request timed out" := by
  unfold forward
  rw [hab]

lemma forward_fst_other {cfg : Config} {ext : Ext} {o : Oracle} {req : Req}
    {targetUrl : String} {extra : List (String × String)}
    {tr0 : List Effect} {localIP : Option String} {m : String}
    (herr : o.fetchResult = FetchResult.otherError m) :
    (forward cfg ext o req targetUrl extra tr0 localIP).1
      = Response.mk 502 [] ("Upstream error: " ++ m) := by
  unfold forward
  rw [herr]

lemma fetchCount_forward (cfg : Config) (ext : Ext) (o : Oracle) (req : Req)
    (targetUrl : String) (extra : List (String × String))
    (tr0 : List Effect) (localIP : Option String) :
    fetchCount (forward cfg ext o req targetUrl extra tr0 localIP).2
      = fetchCount tr0 + 1 := by
  rw [forward_snd]
  unfold fetchCount
  rw [List.countP_append, List.countP_append]
  have hag : (agTrace (jsOr req.proxyParam (chooseFromList cfg.proxyListStr o.proxyPick)) localIP).countP isFetch = 0 := by
    unfold agTrace
    rcases jsOr req.proxyParam (chooseFromList cfg.proxyListStr o.proxyPick) with _ | v
    · rcases localIP with _ | ip <;> simp [isFetch]
    · simp [isFetch]
  rw [hag]
  simp [isFetch]

lemma relay_snd_ne_nil (cfg : Config) (ext : Ext) (o : Oracle) (req : Req)
    (targetRaw : String) : (relay cfg ext o req targetRaw).2 ≠ [] := by
  unfold relay
  rcases hr : randomIPv6 cfg o.randBuf with _ | ip <;> simp only [hr] <;> repeat' split
  all_goals try rw [forward_snd]
  all_goals simp

/-! ## C6 -/

/-- C6: the handler responds with the 401 unauthorized reply and performs
no effect exactly when the auth gate rejects; the gate takes the token
from the `API-Token` header or else the `token` query parameter, never
rejects when `REQUIRE_TOKEN` is off (in which case the handler's outcome
is independent of the token parameter), and accepts a valid token arriving
through either carrier. -/
theorem c6_auth_gate : ∀ (cfg : Config) (ext : Ext) (o : Oracle) (req : Req),
    ((handler cfg ext o req = (unauthorizedResp, [])) ↔ authRejects cfg ext o.nowMs req = true)
    ∧ (cfg.requireToken = false → authRejects cfg ext o.nowMs req = false)
    ∧ (cfg.requireToken = false → ∀ t1 t2 : Option String,
        handler cfg ext o (Req.mk req.method req.headers req.urlParam t1
          req.headersParamParsed req.refererParam req.cookiesParam req.uaParam req.proxyParam)
        = handler cfg ext o (Req.mk req.method req.headers req.urlParam t2
          req.headersParamParsed req.refererParam req.cookiesParam req.uaParam req.proxyParam))
    ∧ (∀ t : String, t ≠ "" → validateApiToken cfg ext o.nowMs (some t) = true →
        authRejects cfg ext o.nowMs (Req.mk req.method [("api-token", t)] req.urlParam none
          req.headersParamParsed req.refererParam req.cookiesParam req.uaParam req.proxyParam) = false
        ∧ authRejects cfg ext o.nowMs (Req.mk req.method [] req.urlParam (some t)
          req.headersParamParsed req.refererParam req.cookiesParam req.uaParam req.proxyParam) = false) := by
  intro cfg ext o req
  refine ⟨⟨?_, ?_⟩, ?_, ?_, ?_⟩
  · intro h
    by_cases ha : authRejects cfg ext o.nowMs req = true
    · exact ha
    · exfalso
      have ha' : authRejects cfg ext o.nowMs req = false := Bool.eq_false_iff.mpr ha
      unfold handler at h
      rw [ha'] at h
      simp only [Bool.false_eq_true, if_false] at h
      split at h
      · split at h <;> simp [unauthorizedResp] at h
      · split at h
        · simp [unauthorizedResp] at h
        · exact relay_snd_ne_nil cfg ext o req _ (congrArg Prod.snd h)
  · intro ha
    unfold handler
    rw [ha]
    rfl
  · intro hrt
    simp [authRejects, hrt]
  · intro hrt t1 t2
    unfold handler
    have h1 : ∀ tp : Option String, authRejects cfg ext o.nowMs (Req.mk req.method req.headers
        req.urlParam tp req.headersParamParsed req.refererParam req.cookiesParam
        req.uaParam req.proxyParam) = false := by
      intro tp; simp [authRejects, hrt]
    rw [h1 t1, h1 t2]
    rfl
  · intro t ht hval
    constructor
    · have hfind : reqHeaderCI [("api-token", t)] "API-Token" = some t := by
        unfold reqHeaderCI
        rw [List.find?_cons_of_pos]
        · rfl
        · exact (by decide : (lowerStr "api-token" == lowerStr "API-Token") = true)
      unfold authRejects
      rw [hfind]
      simp only [jsOr, jsTruthy, if_neg ht, hval, Bool.not_true, Bool.and_false]
    · unfold authRejects
      have hfind : reqHeaderCI ([] : List (String × String)) "API-Token" = none := rfl
      rw [hfind]
      simp only [jsOr, jsTruthy, if_neg ht, hval, Bool.not_true, Bool.and_false]

/-- Witness for C6: concretely, with `REQUIRE_TOKEN` on and no token the
handler answers 401 with an empty trace, and a valid token supplied via
the query parameter passes the gate. -/
theorem c6_auth_gate_witness :
    handler cfgAuth extKeyEcho (Oracle.mk 720000 "linux" true true true [] 0 FetchResult.abortError "")
        (Req.mk "GET" [] (some "x") none [] none none none none)
      = (unauthorizedResp, [])
    ∧ authRejects cfgAuth extKeyEcho 720000
        (Req.mk "GET" [] (some "x") (some "720") [] none none none none) = false :=
  ⟨(c6_auth_gate cfgAuth extKeyEcho (Oracle.mk 720000 "linux" true true true [] 0 FetchResult.abortError "")
      (Req.mk "GET" [] (some "x") none [] none none none none)).1.mpr (by decide),
   ((c6_auth_gate cfgAuth extKeyEcho (Oracle.mk 720000 "linux" true true true [] 0 FetchResult.abortError "")
      (Req.mk "GET" [] (some "x") (some "720") [] none none none none)).2.2.2 "720"
      (by decide) (by decide)).2⟩

/-! ## C2 -/

lemma hasFetch_forward (cfg : Config) (ext : Ext) (o : Oracle) (req : Req)
    (targetUrl : String) (extra : List (String × String))
    (tr0 : List Effect) (localIP : Option String) :
    hasFetch (forward cfg ext o req targetUrl extra tr0 localIP).2 = true := by
  rw [hasFetch, forward_snd]
  simp [isFetch]

lemma relay_fetch_some {cfg : Config} {ext : Ext} {o : Oracle} {req : Req}
    {raw u : String} {l : Option String} {h : List (String × String)} {a : String}
    (hm : Effect.fetchReq u l h ∈ (relay cfg ext o req raw).2) (hl : l = some a) :
    (o.platform == "linux") = true ∧ o.ifaceOk = true
    ∧ randomIPv6 cfg o.randBuf = some a
    ∧ addIPv6Result cfg o = true ∧ o.probeOk = true := by
  unfold relay at hm
  rcases hr : randomIPv6 cfg o.randBuf with _ | ip
  all_goals simp only [hr] at hm
  · -- generated address is the null sentinel: any fetch carries no local address
    exfalso
    split at hm
    · split at hm
      · simp at hm
      · simp only [Bool.not_true, Bool.false_eq_true, if_false] at hm
        rcases fetch_mem_forward hm with hin | ⟨_, hloc⟩
        · simp at hin
        · rw [hl] at hloc; cases hloc
    · rcases fetch_mem_forward hm with hin | ⟨_, hloc⟩
      · simp at hin
      · rw [hl] at hloc; cases hloc
  · split at hm
    · rename_i hlin
      split at hm
      · simp at hm
      · rename_i hiface
        split at hm
        · rename_i hfail
          exfalso
          rw [List.mem_cons] at hm
          rcases hm with hm | hm
          · cases hm
          · cases hea : cfg.enableAssign <;> simp only [hea] at hm <;> simp at hm
        · rename_i hok
          have hadd : addIPv6Result cfg o = true := by
            rcases hb : addIPv6Result cfg o with _ | _
            · rw [hb] at hok; simp at hok
            · rfl
          have hiface' : o.ifaceOk = true := by
            rcases hb : o.ifaceOk with _ | _
            · rw [hb] at hiface; simp at hiface
            · rfl
          rcases fetch_mem_forward hm with hin | ⟨_, hloc⟩
          · exfalso
            rw [List.mem_cons] at hin
            rcases hin with hin | hin
            · cases hin
            · rw [List.mem_append] at hin
              rcases hin with hin | hin
              · cases hea : cfg.enableAssign <;> simp only [hea] at hin <;> simp at hin
              · simp at hin
          · rcases hpro : o.probeOk with _ | _
            · exfalso
              rw [hpro] at hloc
              simp only [Bool.false_eq_true, if_false] at hloc
              rw [hl] at hloc; cases hloc
            · rw [hpro] at hloc
              simp only [if_pos rfl] at hloc
              rw [hl] at hloc
              injection hloc with he
              subst he
              exact ⟨hlin, hiface', rfl, hadd, rfl⟩
    · exfalso
      rcases fetch_mem_forward hm with hin | ⟨_, hloc⟩
      · simp at hin
      · rw [hl] at hloc; cases hloc

lemma relay_fetch_fallback {cfg : Config} {ext : Ext} {o : Oracle} {req : Req} {raw : String}
    (hlin : (o.platform == "linux") = true) (hiface : o.ifaceOk = true)
    (hadd : addIPv6Result cfg o = true) (hpro : o.probeOk = false) :
    hasFetch (relay cfg ext o req raw).2 = true
    ∧ ∀ (u : String) (l : Option String) (h : List (String × String)),
        Effect.fetchReq u l h ∈ (relay cfg ext o req raw).2 → l = none := by
  unfold relay
  rw [hlin]
  simp only [if_pos rfl, hiface, Bool.not_true, Bool.false_eq_true, if_false]
  rcases hr : randomIPv6 cfg o.randBuf with _ | ip
  all_goals simp only [hr, hadd, hpro, Bool.not_true, Bool.false_eq_true, if_false]
  · refine ⟨hasFetch_forward cfg ext o req _ _ _ _, ?_⟩
    intro u l h hm
    rcases fetch_mem_forward hm with hin | ⟨_, hloc⟩
    · simp at hin
    · exact hloc
  · refine ⟨hasFetch_forward cfg ext o req _ _ _ _, ?_⟩
    intro u l h hm
    rcases fetch_mem_forward hm with hin | ⟨_, hloc⟩
    · exfalso
      rw [List.mem_cons] at hin
      rcases hin with hin | hin
      · cases hin
      · rw [List.mem_append] at hin
        rcases hin with hin | hin
        · cases hea : cfg.enableAssign <;> simp only [hea] at hin <;> simp at hin
        · simp at hin
    · exact hloc

/-- C2: the upstream fetch carries a bound local IPv6 address only when
the platform is Linux, the interface check passed, that exact address is
the one `randomIPv6` generated this request, and both the assignment step
and the connectivity probe reported success; and when the probe fails on
Linux (with the interface check and assignment passing) the request still
performs its fetch, with no local address bound (system default). -/
theorem c2_local_egress : ∀ (cfg : Config) (ext : Ext) (o : Oracle) (req : Req),
    (∀ (u : String) (l : Option String) (h : List (String × String)) (a : String),
      Effect.fetchReq u l h ∈ (handler cfg ext o req).2 → l = some a →
      o.platform = "linux" ∧ o.ifaceOk = true ∧ randomIPv6 cfg o.randBuf = some a
      ∧ addIPv6Result cfg o = true ∧ o.probeOk = true)
    ∧ (∀ raw : String, authRejects cfg ext o.nowMs req = false →
        jsTruthy req.urlParam = some raw →
        o.platform = "linux" → o.ifaceOk = true → addIPv6Result cfg o = true →
        o.probeOk = false →
        hasFetch (handler cfg ext o req).2 = true
        ∧ ∀ (u : String) (l : Option String) (h : List (String × String)),
            Effect.fetchReq u l h ∈ (handler cfg ext o req).2 → l = none) := by
  intro cfg ext o req
  constructor
  · intro u l h a hm hl
    unfold handler at hm
    split at hm
    · simp at hm
    · split at hm
      · split at hm <;> simp at hm
      · split at hm
        · simp at hm
        · have := relay_fetch_some hm hl
          exact ⟨beq_iff_eq.mp this.1, this.2⟩
  · intro raw hauth hurl hlin hiface hadd hpro
    unfold handler
    rw [hauth, hurl]
    simp only [Bool.false_eq_true, if_false, Option.isNone_some, Bool.and_false]
    exact relay_fetch_fallback (beq_iff_eq.mpr hlin) hiface hadd hpro

/-- Witness for C2: a concrete request on Linux where assignment and probe
succeed, so the fetch carries exactly the generated address; the theorem's
conclusions evaluate on it. -/
theorem c2_local_egress_witness :
    (Oracle.mk 0 "linux" true true true [0, 1, 0, 2, 0, 3] 0 FetchResult.abortError "").platform = "linux"
    ∧ (Oracle.mk 0 "linux" true true true [0, 1, 0, 2, 0, 3] 0 FetchResult.abortError "").ifaceOk = true
    ∧ randomIPv6 cfgDefault (Oracle.mk 0 "linux" true true true [0, 1, 0, 2, 0, 3] 0 FetchResult.abortError "").randBuf
        = some "2001:41d0:601:1100:5950:0001:0002:0003"
    ∧ addIPv6Result cfgDefault (Oracle.mk 0 "linux" true true true [0, 1, 0, 2, 0, 3] 0 FetchResult.abortError "") = true
    ∧ (Oracle.mk 0 "linux" true true true [0, 1, 0, 2, 0, 3] 0 FetchResult.abortError "").probeOk = true :=
  (c2_local_egress cfgDefault extKeyEcho
      (Oracle.mk 0 "linux" true true true [0, 1, 0, 2, 0, 3] 0 FetchResult.abortError "")
      (Req.mk "GET" [] (some "example.com") none [] none none none none)).1
    "https://example.com" (some "2001:41d0:601:1100:5950:0001:0002:0003")
    (buildFwdHeaders extKeyEcho.urlOriginOf [] [] none none none)
    "2001:41d0:601:1100:5950:0001:0002:0003" (by decide) rfl

/-! ## C7 -/

lemma fetchCount_relay_le (cfg : Config) (ext : Ext) (o : Oracle) (req : Req) (raw : String) :
    fetchCount (relay cfg ext o req raw).2 ≤ 1 := by
  unfold relay
  rcases hr : randomIPv6 cfg o.randBuf with _ | ip <;> simp only [hr] <;> repeat' split
  all_goals try rw [fetchCount_forward]
  all_goals cases hea : cfg.enableAssign <;> simp [fetchCount, isFetch, hea]

lemma relay_fst_abort {cfg : Config} {ext : Ext} {o : Oracle} {req : Req} {raw : String}
    (hab : o.fetchResult = FetchResult.abortError) :
    hasFetch (relay cfg ext o req raw).2 = true →
    (relay cfg ext o req raw).1 = Response.mk 504 [] "Request timed out" := by
  unfold relay
  rcases hr : randomIPv6 cfg o.randBuf with _ | ip <;> simp only [hr] <;> repeat' split
  all_goals intro hf
  all_goals try exact forward_fst_abort hab
  all_goals cases hea : cfg.enableAssign <;> simp [hasFetch, isFetch, hea] at hf

lemma relay_fst_other {cfg : Config} {ext : Ext} {o : Oracle} {req : Req} {raw m : String}
    (herr : o.fetchResult = FetchResult.otherError m) :
    hasFetch (relay cfg ext o req raw).2 = true →
    (relay cfg ext o req raw).1 = Response.mk 502 [] ("Upstream error: " ++ m) := by
  unfold relay
  rcases hr : randomIPv6 cfg o.randBuf with _ | ip <;> simp only [hr] <;> repeat' split
  all_goals intro hf
  all_goals try exact forward_fst_other herr
  all_goals cases hea : cfg.enableAssign <;> simp [hasFetch, isFetch, hea] at hf

/-- C7: the handler performs at most one upstream fetch (no retry); when a
fetch happened, an aborted fetch yields status 504 and any other transport
error yields status 502 with the underlying message in the body; and on
Linux a failed interface check, or a failed assignment of a generated
address with assignment enabled, aborts the request with status 500 (the
former before any other effect). -/
theorem c7_failure_mapping : ∀ (cfg : Config) (ext : Ext) (o : Oracle) (req : Req),
    fetchCount (handler cfg ext o req).2 ≤ 1
    ∧ (hasFetch (handler cfg ext o req).2 = true →
        (o.fetchResult = FetchResult.abortError → (handler cfg ext o req).1.status = 504)
        ∧ (∀ m : String, o.fetchResult = FetchResult.otherError m →
            (handler cfg ext o req).1.status = 502
            ∧ (handler cfg ext o req).1.body = "Upstream error: " ++ m))
    ∧ (∀ raw : String, authRejects cfg ext o.nowMs req = false →
        jsTruthy req.urlParam = some raw → o.platform = "linux" →
        (o.ifaceOk = false →
          handler cfg ext o req
            = (Response.mk 500 [] ("Interface " ++ cfg.ifaceName ++ " not found"),
               [Effect.checkIfaceCmd]))
        ∧ (∀ ip : String, o.ifaceOk = true → randomIPv6 cfg o.randBuf = some ip →
            cfg.enableAssign = true → o.addOk = false →
            (handler cfg ext o req).1 = Response.mk 500 [] "Failed to configure IPv6 address")) := by
  intro cfg ext o req
  refine ⟨?_, ?_, ?_⟩
  · unfold handler
    repeat' split
    all_goals try exact fetchCount_relay_le cfg ext o req _
    all_goals simp [fetchCount]
  · intro hf
    constructor
    · intro hab
      unfold handler at hf ⊢
      split at hf
      · simp [hasFetch] at hf
      · rename_i hna
        split at hf
        · split at hf <;> simp [hasFetch] at hf
        · rename_i hnh
          split at hf
          · simp [hasFetch] at hf
          · rw [if_neg hna, if_neg hnh]
            rw [relay_fst_abort hab hf]
    · intro m herr
      unfold handler at hf ⊢
      split at hf
      · simp [hasFetch] at hf
      · rename_i hna
        split at hf
        · split at hf <;> simp [hasFetch] at hf
        · rename_i hnh
          split at hf
          · simp [hasFetch] at hf
          · rw [if_neg hna, if_neg hnh]
            rw [relay_fst_other herr hf]
            exact ⟨rfl, rfl⟩
  · intro raw hauth hurl hlin
    have hlin' : (o.platform == "linux") = true := beq_iff_eq.mpr hlin
    constructor
    · intro hiface
      unfold handler
      rw [hauth, hurl]
      simp only [Bool.false_eq_true, if_false, Option.isNone_some, Bool.and_false]
      unfold relay
      rw [hlin', hiface]
      simp only [if_pos rfl, Bool.not_false, if_true]
    · intro ip hiface hr hea haddOk
      unfold handler
      rw [hauth, hurl]
      simp only [Bool.false_eq_true, if_false, Option.isNone_some, Bool.and_false]
      unfold relay
      rw [hlin', hiface, hr]
      simp only [if_pos rfl, Bool.not_true, Bool.false_eq_true, if_false,
        addIPv6Result, hea, haddOk, if_true, Bool.not_false]

/-- Witness for C7: concretely, a Linux request whose interface check
fails answers 500 with only the interface-check effect in its trace. -/
theorem c7_failure_mapping_witness :
    handler cfgDefault extKeyEcho
        (Oracle.mk 0 "linux" false true true [0, 1, 0, 2, 0, 3] 0 FetchResult.abortError "")
        (Req.mk "GET" [] (some "example.com") none [] none none none none)
      = (Response.mk 500 [] ("Interface " ++ cfgDefault.ifaceName ++ " not found"),
         [Effect.checkIfaceCmd]) :=
  ((c7_failure_mapping cfgDefault extKeyEcho
      (Oracle.mk 0 "linux" false true true [0, 1, 0, 2, 0, 3] 0 FetchResult.abortError "")
      (Req.mk "GET" [] (some "example.com") none [] none none none none)).2.2
    "example.com" (by decide) rfl rfl).1 rfl

end I6
